import Mathlib

/-!
Shallow embedding of the QCDT price-alert monitor (src/main.py).

The Python program is a single-process Telegram bot.  Its core is a
daily state machine driven by scheduled jobs (`check_price`, `nag_poll`,
`job_6pm_nag_kickoff`, `daily_reset`) and an asynchronous poll-answer
handler (`on_poll_answer`).  We embed the state dict as `MonitorState`,
the clock reads (`now_sgt()` and the derived helpers) as an explicit
`Now` record passed to each entry point, the endpoint fetch as an
`Except String Payload` argument (`.error e` models a raised exception
with text `e`), and the Telegram side effects as a trace of `Event`
values returned alongside the new state.  A successful `send_poll` is
modelled by passing the identifier the platform would assign as
`some pid`; `none` models a failed poll send (the code's `if poll:`
guard then skips storing the identifier).
-/

/-- The `data` object of the endpoint payload, with the three fields the
program reads: `update_time` (the change marker, format
`YYYY-MM-DD HH:MM:SS`), `price_date` (`YYYY-MM-DD`) and `price`. -/
structure Payload where
  update_time : String
  price_date : String
  price : String
deriving DecidableEq, Repr

/-- The module-level `state` dict of src/main.py.  `last_error_at` is kept
as an absolute SGT timestamp in seconds (an `Int`, so that the
`datetime` subtraction in `should_send_error` is ordinary integer
subtraction). -/
structure MonitorState where
  last_seen_update_time : Option String
  update_detected : Bool
  stop_all : Bool
  stop_nags : Bool
  pending_update_payload : Option Payload
  pending_update_poll_id : Option String
  pending_nag_poll_id : Option String
  last_error_at : Option Int
deriving DecidableEq, Repr

/-- The zero value of the state: the literal the `state` dict is
initialised with at module load. -/
def initialState : MonitorState :=
  { last_seen_update_time := none
    update_detected := false
    stop_all := false
    stop_nags := false
    pending_update_payload := none
    pending_update_poll_id := none
    pending_nag_poll_id := none
    last_error_at := none }

/-- One reading of the SGT clock (`now_sgt()`), decomposed into the
projections the program uses: calendar date, weekday index
(0 = Monday .. 6 = Sunday, as Python's `datetime.weekday()`), the
time of day in seconds (for the `dtime` window comparisons), and an
absolute timestamp in seconds for `datetime` subtraction. -/
structure Now where
  year : Nat
  month : Nat
  day : Nat
  weekday : Nat
  secondOfDay : Nat
  absSeconds : Int
deriving DecidableEq, Repr

/-- Telegram side effects, in program order.  `send` is `safe_send`
without a parse mode, `sendHtml` is `safe_send` with `ParseMode.HTML`,
and `pollOpen` is a successful `safe_send_poll` together with the poll
identifier the platform assigned. -/
inductive Event where
  | send (text : String)
  | sendHtml (text : String)
  | pollOpen (question : String) (options : List String) (pollId : String)
deriving DecidableEq, Repr

/-- Recogniser for poll-opening events. -/
def Event.isPollOpen : Event → Bool
  | .pollOpen _ _ _ => true
  | _ => false

-- =========================
-- CONFIG constants of src/main.py (times converted to seconds of day)
-- =========================

def TAG_LINE : String := "@mrpotato1234 please cross ref QCDT price to NAV pack email"

def CC_LINE : String := "CC: @Nathan_DMZ @LEEKAIYANG @Duke_RWAlpha @AscentHamza @Ascentkaiwei"

def DAILY_REMINDER : String := "📝 Ascent, please remember to update QCDT price on the portal."

/-- `NAG_START = dtime(18, 0)` as seconds of day. -/
def NAG_START : Nat := 18 * 3600

/-- `NAG_END = dtime(21, 0)` as seconds of day. -/
def NAG_END : Nat := 21 * 3600

/-- The lower bound `dtime(15, 0)` of the check window in `check_price`. -/
def CHECK_WINDOW_START : Nat := 15 * 3600

/-- The upper bound `dtime(21, 0)` of the check window in `check_price`. -/
def CHECK_WINDOW_END : Nat := 21 * 3600

/-- `ERROR_COOLDOWN = timedelta(minutes=60)`, in seconds. -/
def ERROR_COOLDOWN : Int := 60 * 60

-- =========================
-- TIME HELPERS
-- =========================

/-- `is_weekday`: `dt.weekday() < 5`. -/
def is_weekday (now : Now) : Bool := now.weekday < 5

/-- Zero-padded two-digit rendering, as Python `%m`, `%d`, `%H`, `%M`. -/
def pad2 (n : Nat) : String := if n < 10 then "0" ++ toString n else toString n

/-- `today_str`: `now_sgt().strftime("%Y-%m-%d")`. -/
def today_str (now : Now) : String :=
  toString now.year ++ "-" ++ pad2 now.month ++ "-" ++ pad2 now.day

/-- `%b`: English month abbreviation (1 = Jan .. 12 = Dec). -/
def monthAbbr : Nat → String
  | 1 => "Jan" | 2 => "Feb" | 3 => "Mar" | 4 => "Apr" | 5 => "May" | 6 => "Jun"
  | 7 => "Jul" | 8 => "Aug" | 9 => "Sep" | 10 => "Oct" | 11 => "Nov" | 12 => "Dec"
  | _ => "?"

/-- `%a`: English weekday abbreviation (0 = Mon .. 6 = Sun). -/
def weekdayAbbr : Nat → String
  | 0 => "Mon" | 1 => "Tue" | 2 => "Wed" | 3 => "Thu" | 4 => "Fri"
  | 5 => "Sat" | 6 => "Sun"
  | _ => "?"

/-- Python `str.lstrip("0")`: drop every leading `0` character. -/
def lstripZeros (s : String) : String := (s.toList.dropWhile (· == '0')).asString

/-- `pretty_date_yyyy_mm_dd`: parse `YYYY-MM-DD` and render
`"%d %b %Y"` with all leading zeros stripped (e.g. `"2026-02-02"`
becomes `"2 Feb 2026"`).  Defined positionally on the ten-character
zero-padded shape the endpoint contract guarantees; on a malformed
input the Python original raises instead (aborting the calling
handler), a path no claim exercises. -/
def pretty_date_yyyy_mm_dd (s : String) : String :=
  let cs := s.toList
  let year := (cs.take 4).asString
  let m := 10 * (cs.getD 5 '0').toNat + (cs.getD 6 '0').toNat - 11 * 48
  let dayStr := ((cs.drop 8).take 2).asString
  lstripZeros (dayStr ++ " " ++ monthAbbr m ++ " " ++ year)

/-- `pretty_today`: `now_sgt().strftime("%d %b %Y").lstrip("0")`. -/
def pretty_today (now : Now) : String :=
  lstripZeros (pad2 now.day ++ " " ++ monthAbbr now.month ++ " " ++ toString now.year)

/-- `should_send_error`: true when no error was ever notified or the
60-minute cooldown has elapsed since `last_error_at`. -/
def should_send_error (st : MonitorState) (now : Now) : Bool :=
  match st.last_error_at with
  | none => true
  | some last => decide (ERROR_COOLDOWN ≤ now.absSeconds - last)

/-- `within_time_window`: `start <= now_t <= end` on times of day. -/
def within_time_window (now_t start_t end_t : Nat) : Bool :=
  decide (start_t ≤ now_t ∧ now_t ≤ end_t)

-- =========================
-- MARKER PARSING
-- =========================

/-- Numeric value of two decimal digit characters. -/
def twoDigits (a b : Char) : Nat := 10 * a.toNat + b.toNat - 11 * 48

def isLeapYear (y : Nat) : Bool := y % 4 == 0 && (y % 100 != 0 || y % 400 == 0)

def daysInMonth (y m : Nat) : Nat :=
  if m == 2 then (if isLeapYear y then 29 else 28)
  else if m == 4 || m == 6 || m == 9 || m == 11 then 30
  else 31

/-- Structural validity of an update marker for
`strptime(s, "%Y-%m-%d %H:%M:%S")`: the zero-padded 19-character shape
with all fields in range. -/
def wellFormedMarker (s : String) : Bool :=
  match s.toList with
  | [y1, y2, y3, y4, h1, m1, m2, h2, d1, d2, sp, hh1, hh2, c1, mm1, mm2, c2, ss1, ss2] =>
    y1.isDigit && y2.isDigit && y3.isDigit && y4.isDigit && h1 == '-' &&
    m1.isDigit && m2.isDigit && h2 == '-' && d1.isDigit && d2.isDigit &&
    sp == ' ' && hh1.isDigit && hh2.isDigit && c1 == ':' &&
    mm1.isDigit && mm2.isDigit && c2 == ':' && ss1.isDigit && ss2.isDigit &&
    (let y := 1000 * y1.toNat + 100 * y2.toNat + 10 * y3.toNat + y4.toNat - 1111 * 48
     let mo := twoDigits m1 m2
     let d := twoDigits d1 d2
     decide (1 ≤ mo) && decide (mo ≤ 12) && decide (1 ≤ d) && decide (d ≤ daysInMonth y mo) &&
     decide (twoDigits hh1 hh2 ≤ 23) && decide (twoDigits mm1 mm2 ≤ 59) &&
     decide (twoDigits ss1 ss2 ≤ 59))
  | _ => false

/-- `parse_update_time_sgt` followed by `strftime("%Y-%m-%d")`, the only
use the program makes of the parsed value.  For the zero-padded shape
checked by `wellFormedMarker` that rendering is exactly the first ten
characters of the marker; a marker `strptime` would reject yields
`none`, which the caller treats as the raised `ValueError`. -/
def parse_update_time_sgt (s : String) : Option String :=
  if wellFormedMarker s then some ((s.toList.take 10).asString) else none

/-- `json.dumps(payload, ensure_ascii=False)` for the payload shape the
program consumes (an object with a single `data` object holding the
three string fields). -/
def payloadJson (p : Payload) : String :=
  "\x7b\"data\": \x7b\"update_time\": \"" ++ p.update_time ++
  "\", \"price_date\": \"" ++ p.price_date ++
  "\", \"price\": \"" ++ p.price ++ "\"\x7d\x7d"

-- =========================
-- PRICE UPDATE FLOW
-- =========================

/-- The update-announcement poll question. -/
def UPDATE_POLL_QUESTION : String := "QCDT price update detected. Action?"

/-- The three options of the announcement poll. -/
def UPDATE_POLL_OPTIONS : List String :=
  ["✅ Acknowledge", "🕵️ Investigating / Dispute", "🎌 Public holiday"]

/-- The nag poll question. -/
def NAG_POLL_QUESTION : String := "⚠️ QCDT price not updated yet. Action?"

/-- The two options of the nag poll. -/
def NAG_POLL_OPTIONS : List String :=
  ["🕵️ Investigating / Dispute", "🎌 Public holiday"]

/-- The `except` branch of `check_price` (lines 212-215): broadcast the
error under cooldown, else swallow silently. -/
def check_price_error (now : Now) (e : String) (st : MonitorState) :
    MonitorState × List Event :=
  if should_send_error st now then
    ({ st with last_error_at := some now.absSeconds },
     [Event.sendHtml ("⚠️ QCDT monitor error:\n<pre>" ++ e ++ "</pre>")])
  else (st, [])

/-- `check_price`: the periodic change-detection entry point.
`fetch` is the outcome of `fetch_payload()` (`.error e` models the
raised exception text), `newPollId` the identifier a successful
`send_poll` would return (`none` models poll-send failure). -/
def check_price (now : Now) (fetch : Except String Payload)
    (newPollId : Option String) (st : MonitorState) : MonitorState × List Event :=
  if st.stop_all then (st, [])
  else if ¬ is_weekday now then (st, [])
  else if ¬ within_time_window now.secondOfDay CHECK_WINDOW_START CHECK_WINDOW_END then
    (st, [])
  else
    match fetch with
    | .error e => check_price_error now e st
    | .ok payload =>
      let ut := payload.update_time
      match parse_update_time_sgt ut with
      | none => check_price_error now ("time data parse failure: " ++ ut) st
      | some utDate =>
        let changed := st.last_seen_update_time != some ut
        let is_today := utDate == today_str now
        let st1 := { st with last_seen_update_time := some ut }
        if changed && is_today && !st.update_detected then
          let st2 := { st1 with update_detected := true,
                                pending_update_payload := some payload }
          match newPollId with
          | some pid =>
            ({ st2 with pending_update_poll_id := some pid },
             [Event.sendHtml ("<pre>" ++ payloadJson payload ++ "</pre>"),
              Event.send TAG_LINE,
              Event.pollOpen UPDATE_POLL_QUESTION UPDATE_POLL_OPTIONS pid])
          | none =>
            (st2,
             [Event.sendHtml ("<pre>" ++ payloadJson payload ++ "</pre>"),
              Event.send TAG_LINE])
        else (st1, [])

/-- `build_ack_message`: the acknowledgment line built from the stored
payload.  The Python original reads the clock through `pretty_today()`,
made explicit here as the `now` argument. -/
def build_ack_message (now : Now) (payload : Payload) : String :=
  "Updated today on " ++ pretty_today now ++ " for " ++
  pretty_date_yyyy_mm_dd payload.price_date ++ " QCDT price. " ++
  "Price of " ++ payload.price ++ " tallies with NAV report. " ++ CC_LINE

-- =========================
-- NAGGING
-- =========================

/-- `nag_poll`: the nag entry point (shared by the repeating job and the
kickoff).  `newPollId` as in `check_price`. -/
def nag_poll (now : Now) (newPollId : Option String) (st : MonitorState) :
    MonitorState × List Event :=
  if st.stop_all || st.stop_nags || st.update_detected then (st, [])
  else if ¬ is_weekday now then (st, [])
  else if ¬ within_time_window now.secondOfDay NAG_START NAG_END then (st, [])
  else
    match newPollId with
    | some pid =>
      ({ st with pending_nag_poll_id := some pid },
       [Event.pollOpen NAG_POLL_QUESTION NAG_POLL_OPTIONS pid])
    | none => (st, [])

/-- `job_6pm_nag_kickoff`: the 18:00 daily job; re-checks the halt flags
and the weekday, then delegates to `nag_poll`. -/
def job_6pm_nag_kickoff (now : Now) (newPollId : Option String)
    (st : MonitorState) : MonitorState × List Event :=
  if st.stop_all || st.stop_nags || st.update_detected then (st, [])
  else if ¬ is_weekday now then (st, [])
  else nag_poll now newPollId st

/-- `daily_reset`: the 00:01 SGT job; writes every field of the state
back to its initial value and broadcasts a confirmation. -/
def daily_reset (st : MonitorState) : MonitorState × List Event :=
  let _ := st
  (initialState, [Event.send "🔄 QCDT bot daily reset (SGT)."])

-- =========================
-- POLL ANSWERS
-- =========================

/-- An incoming `PollAnswer` update: the answered poll's identifier and
the chosen option indices (`option_ids`). -/
structure PollAnswer where
  poll_id : String
  option_ids : List Nat
deriving DecidableEq, Repr

/-- `on_poll_answer`: routes an answer by poll identifier.  The
announcement branch is checked first and wins; any match there sets
`stop_all` whatever the chosen option.  The nag branch sets `stop_nags`
only for option index 1. -/
def on_poll_answer (now : Now) (pa : PollAnswer) (st : MonitorState) :
    MonitorState × List Event :=
  match pa.option_ids with
  | [] => (st, [])
  | choice :: _ =>
    if st.pending_update_poll_id = some pa.poll_id then
      let st1 := { st with stop_all := true }
      let evs :=
        match choice, st.pending_update_payload with
        | 0, some payload => [Event.send (build_ack_message now payload)]
        | 1, _ => [Event.send "🕵️ Marked as Investigating / Dispute. Monitoring stopped for today."]
        | 2, _ => [Event.send "🎌 Marked as Public holiday. Monitoring stopped for today."]
        | _, _ => [Event.send "Noted. Monitoring stopped for today."]
      (st1, evs)
    else if st.pending_nag_poll_id = some pa.poll_id then
      if choice = 1 then
        ({ st with stop_nags := true },
         [Event.send "🎌 Public holiday noted. Nag reminders stopped for today."])
      else
        (st, [Event.send "🕵️ Noted: Investigating / Dispute."])
    else (st, [])

-- =========================
-- STARTUP
-- =========================

/-- `now_sgt():%a %d %b %Y %H:%M`, the timestamp in the startup notice. -/
def startupTimeStr (now : Now) : String :=
  weekdayAbbr now.weekday ++ " " ++ pad2 now.day ++ " " ++ monthAbbr now.month ++
  " " ++ toString now.year ++ " " ++ pad2 (now.secondOfDay / 3600) ++ ":" ++
  pad2 (now.secondOfDay % 3600 / 60)

/-- `post_init`: runs once at startup after the bot is ready; sends the
online notice and nothing else.  It reads no monitor state and opens no
poll. -/
def post_init (now : Now) : List Event :=
  [Event.send ("✅ QCDT bot online at " ++ startupTimeStr now ++ " (SGT)")]

/-- A repeating job registration in `main()`: interval and initial delay
in seconds, as passed to `jq.run_repeating`. -/
structure RepeatingJob where
  interval_s : Nat
  first_s : Nat
deriving DecidableEq, Repr

/-- `jq.run_repeating(nag_poll, interval=NAG_EVERY_MIN * 60, first=60)`. -/
def nag_repeat_job : RepeatingJob := { interval_s := 15 * 60, first_s := 60 }

/-- `jq.run_repeating(check_price, interval=CHECK_EVERY_MIN * 60, first=10)`. -/
def price_check_job : RepeatingJob := { interval_s := 2 * 60, first_s := 10 }

-- =========================
-- THEOREMS
-- =========================

/-- `needle` occurs as a contiguous substring of `hay`. -/
def containsStr (hay needle : String) : Prop :=
  ∃ pre post, hay = pre ++ needle ++ post

theorem containsStr_append_left (a b needle : String) (h : containsStr b needle) :
    containsStr (a ++ b) needle := by
  obtain ⟨pre, post, rfl⟩ := h
  exact ⟨a ++ pre, post, by simp [String.append_assoc]⟩

/-- C1: once `check_price` passes its gates and the fetch succeeds with a
parseable marker, an announcement fires iff the marker changed, its
embedded date is today, and `update_detected` is still false; on
announce the state records detection, stores the payload, the raw
payload and the fixed tag line are broadcast, the 3-option poll is
opened and its identifier is stored in `pending_update_poll_id`;
otherwise only the marker is refreshed. -/
theorem check_price_announce_iff
    (now : Now) (st : MonitorState) (p : Payload) (pid : String) (d : String)
    (hstop : st.stop_all = false)
    (hwd : is_weekday now = true)
    (hwin : within_time_window now.secondOfDay CHECK_WINDOW_START CHECK_WINDOW_END = true)
    (hparse : parse_update_time_sgt p.update_time = some d) :
    check_price now (.ok p) (some pid) st =
      if (st.last_seen_update_time != some p.update_time) && (d == today_str now)
          && !st.update_detected then
        ({ st with last_seen_update_time := some p.update_time,
                   update_detected := true,
                   pending_update_payload := some p,
                   pending_update_poll_id := some pid },
         [Event.sendHtml ("<pre>" ++ payloadJson p ++ "</pre>"),
          Event.send TAG_LINE,
          Event.pollOpen UPDATE_POLL_QUESTION UPDATE_POLL_OPTIONS pid])
      else ({ st with last_seen_update_time := some p.update_time }, []) := by
  simp [check_price, hstop, hwd, hwin, hparse]

theorem check_price_announce_iff_witness :
    initialState.stop_all = false ∧
    is_weekday ⟨2025, 6, 10, 1, 58500, 0⟩ = true ∧
    within_time_window 58500 CHECK_WINDOW_START CHECK_WINDOW_END = true ∧
    parse_update_time_sgt "2025-06-10 09:15:00" = some "2025-06-10" ∧
    check_price ⟨2025, 6, 10, 1, 58500, 0⟩
        (.ok ⟨"2025-06-10 09:15:00", "2025-06-10", "1.0023"⟩) (some "poll1")
        initialState =
      ({ initialState with
           last_seen_update_time := some "2025-06-10 09:15:00",
           update_detected := true,
           pending_update_payload := some ⟨"2025-06-10 09:15:00", "2025-06-10", "1.0023"⟩,
           pending_update_poll_id := some "poll1" },
       [Event.sendHtml ("<pre>" ++
          payloadJson ⟨"2025-06-10 09:15:00", "2025-06-10", "1.0023"⟩ ++ "</pre>"),
        Event.send TAG_LINE,
        Event.pollOpen UPDATE_POLL_QUESTION UPDATE_POLL_OPTIONS "poll1"]) := by
  refine ⟨rfl, by decide, by decide, by decide, ?_⟩
  rw [check_price_announce_iff ⟨2025, 6, 10, 1, 58500, 0⟩ initialState
        ⟨"2025-06-10 09:15:00", "2025-06-10", "1.0023"⟩ "poll1" "2025-06-10"
        rfl (by decide) (by decide) (by decide)]
  decide

/-- C2: once `stop_all` is set, `check_price`, `nag_poll` and the 18:00
kickoff all return the state unchanged and produce no broadcast and no
poll, for any clock, fetch outcome and poll identifier. -/
theorem halted_monitor_silent
    (now : Now) (fetch : Except String Payload) (np1 np2 np3 : Option String)
    (st : MonitorState) (h : st.stop_all = true) :
    check_price now fetch np1 st = (st, []) ∧
    nag_poll now np2 st = (st, []) ∧
    job_6pm_nag_kickoff now np3 st = (st, []) := by
  refine ⟨?_, ?_, ?_⟩ <;> simp [check_price, nag_poll, job_6pm_nag_kickoff, h]

theorem halted_monitor_silent_witness :
    ({ initialState with stop_all := true } : MonitorState).stop_all = true ∧
    (check_price ⟨2025, 6, 10, 1, 66600, 0⟩
        (.ok ⟨"2025-06-10 09:15:00", "2025-06-10", "1.0023"⟩) (some "p1")
        { initialState with stop_all := true } =
      ({ initialState with stop_all := true }, []) ∧
    nag_poll ⟨2025, 6, 10, 1, 66600, 0⟩ (some "p2")
        { initialState with stop_all := true } =
      ({ initialState with stop_all := true }, []) ∧
    job_6pm_nag_kickoff ⟨2025, 6, 10, 1, 66600, 0⟩ (some "p3")
        { initialState with stop_all := true } =
      ({ initialState with stop_all := true }, [])) :=
  ⟨rfl,
   halted_monitor_silent ⟨2025, 6, 10, 1, 66600, 0⟩
     (.ok ⟨"2025-06-10 09:15:00", "2025-06-10", "1.0023"⟩) (some "p1") (some "p2")
     (some "p3") { initialState with stop_all := true } rfl⟩

theorem build_ack_message_contains (now : Now) (ut pd pr : String) :
    containsStr (build_ack_message now ⟨ut, pd, pr⟩) (pretty_date_yyyy_mm_dd pd) ∧
    containsStr (build_ack_message now ⟨ut, pd, pr⟩) pr := by
  constructor
  · exact ⟨"Updated today on " ++ pretty_today now ++ " for ",
      " QCDT price. " ++ "Price of " ++ pr ++ " tallies with NAV report. " ++ CC_LINE,
      by simp [build_ack_message, String.append_assoc]⟩
  · exact ⟨"Updated today on " ++ pretty_today now ++ " for " ++
        pretty_date_yyyy_mm_dd pd ++ " QCDT price. " ++ "Price of ",
      " tallies with NAV report. " ++ CC_LINE,
      by simp [build_ack_message, String.append_assoc]⟩

/-- C3: any answer whose poll identifier matches
`pending_update_poll_id` sets `stop_all`, whatever the chosen option
index; and when option 0 is chosen with the stored payload carrying
`price_date = "2025-06-10"` and `price = "1.0023"`, exactly one
acknowledgment is broadcast and its text contains `"10 Jun 2025"` and
`"1.0023"`. -/
theorem announcement_answer_halts_and_acks
    (now : Now) (st : MonitorState) (pid : String) (choice : Nat) (rest : List Nat)
    (hpid : st.pending_update_poll_id = some pid) :
    ((on_poll_answer now ⟨pid, choice :: rest⟩ st).1).stop_all = true ∧
    (choice = 0 →
      ∀ ut, st.pending_update_payload = some ⟨ut, "2025-06-10", "1.0023"⟩ →
        ∃ msg, (on_poll_answer now ⟨pid, choice :: rest⟩ st).2 = [Event.send msg] ∧
          containsStr msg "10 Jun 2025" ∧ containsStr msg "1.0023") := by
  constructor
  · simp [on_poll_answer, hpid]
  · rintro rfl ut hpay
    refine ⟨build_ack_message now ⟨ut, "2025-06-10", "1.0023"⟩, ?_, ?_, ?_⟩
    · simp [on_poll_answer, hpid, hpay]
    · have h := (build_ack_message_contains now ut "2025-06-10" "1.0023").1
      have hpd : pretty_date_yyyy_mm_dd "2025-06-10" = "10 Jun 2025" := by decide
      rwa [hpd] at h
    · exact (build_ack_message_contains now ut "2025-06-10" "1.0023").2

theorem announcement_answer_halts_and_acks_witness :
    ({ initialState with
         pending_update_poll_id := some "pu1",
         pending_update_payload :=
           some ⟨"2025-06-10 09:15:00", "2025-06-10", "1.0023"⟩ } :
      MonitorState).pending_update_poll_id = some "pu1" ∧
    (((on_poll_answer ⟨2025, 6, 10, 1, 58500, 0⟩ ⟨"pu1", [0]⟩
        { initialState with
            pending_update_poll_id := some "pu1",
            pending_update_payload :=
              some ⟨"2025-06-10 09:15:00", "2025-06-10", "1.0023"⟩ }).1).stop_all = true ∧
     ((0 : Nat) = 0 →
       ∀ ut, ({ initialState with
                  pending_update_poll_id := some "pu1",
                  pending_update_payload :=
                    some ⟨"2025-06-10 09:15:00", "2025-06-10", "1.0023"⟩ } :
               MonitorState).pending_update_payload =
             some ⟨ut, "2025-06-10", "1.0023"⟩ →
         ∃ msg, (on_poll_answer ⟨2025, 6, 10, 1, 58500, 0⟩ ⟨"pu1", [0]⟩
             { initialState with
                 pending_update_poll_id := some "pu1",
                 pending_update_payload :=
                   some ⟨"2025-06-10 09:15:00", "2025-06-10", "1.0023"⟩ }).2 =
             [Event.send msg] ∧
           containsStr msg "10 Jun 2025" ∧ containsStr msg "1.0023")) :=
  ⟨rfl,
   announcement_answer_halts_and_acks ⟨2025, 6, 10, 1, 58500, 0⟩
     { initialState with
         pending_update_poll_id := some "pu1",
         pending_update_payload :=
           some ⟨"2025-06-10 09:15:00", "2025-06-10", "1.0023"⟩ }
     "pu1" 0 [] rfl⟩

/-- C4 (counterexample): at a startup instant inside the nag window on a
business day, with the zero-valued state in force, the startup flow
opens no poll at all — its whole output is the single online notice —
contradicting the claim that it opens exactly one nag poll before any
scheduled trigger fires. -/
theorem post_init_opens_no_poll :
    is_weekday ⟨2025, 6, 10, 1, 66600, 0⟩ = true ∧
    within_time_window 66600 NAG_START NAG_END = true ∧
    initialState.stop_all = false ∧
    initialState.stop_nags = false ∧
    initialState.update_detected = false ∧
    (post_init ⟨2025, 6, 10, 1, 66600, 0⟩).filter Event.isPollOpen = [] ∧
    post_init ⟨2025, 6, 10, 1, 66600, 0⟩ =
      [Event.send "✅ QCDT bot online at Tue 10 Jun 2025 18:30 (SGT)"] := by
  refine ⟨by decide, by decide, rfl, rfl, rfl, by decide, by decide⟩

/-- C4 (amended): at process startup, after the notification channel is
ready, the startup flow only broadcasts the online notice and never
opens any poll, whatever the clock reads and whatever the window and
halt flags would say; the first nag poll after a restart inside the nag
window comes instead from the scheduled repeating nag trigger, whose
first firing is 60 seconds after start. -/
theorem post_init_only_online_notice (now : Now) :
    post_init now =
      [Event.send ("✅ QCDT bot online at " ++ startupTimeStr now ++ " (SGT)")] ∧
    (post_init now).filter Event.isPollOpen = [] ∧
    nag_repeat_job.first_s = 60 :=
  ⟨rfl, rfl, rfl⟩

/-- C5: once the gates of `check_price` pass and the fetch succeeds with
a marker `strptime` accepts, `last_seen_update_time` is set to the
freshly observed marker on every path, announcing or not; and whenever
`update_detected` is already true the call changes nothing else and
emits no broadcast and no poll. -/
theorem check_price_marker_idempotence
    (now : Now) (st : MonitorState) (p : Payload) (np : Option String) (d : String)
    (hstop : st.stop_all = false)
    (hwd : is_weekday now = true)
    (hwin : within_time_window now.secondOfDay CHECK_WINDOW_START CHECK_WINDOW_END = true)
    (hparse : parse_update_time_sgt p.update_time = some d) :
    ((check_price now (.ok p) np st).1).last_seen_update_time = some p.update_time ∧
    (st.update_detected = true →
      check_price now (.ok p) np st =
        ({ st with last_seen_update_time := some p.update_time }, [])) := by
  constructor
  · simp only [check_price, hstop, hwd, hwin, hparse]
    simp only [Bool.false_eq_true, if_false, not_true_eq_false, if_true]
    split
    · split <;> rfl
    · rfl
  · intro hdet
    simp [check_price, hstop, hwd, hwin, hparse, hdet]

theorem check_price_marker_idempotence_witness :
    ({ initialState with
         update_detected := true,
         last_seen_update_time := some "2025-06-10 09:15:00" } :
       MonitorState).stop_all = false ∧
    parse_update_time_sgt "2025-06-10 09:15:00" = some "2025-06-10" ∧
    ({ initialState with
         update_detected := true,
         last_seen_update_time := some "2025-06-10 09:15:00" } :
       MonitorState).update_detected = true ∧
    (((check_price ⟨2025, 6, 10, 1, 58500, 0⟩
          (.ok ⟨"2025-06-10 09:15:00", "2025-06-10", "1.0023"⟩) (some "p9")
          { initialState with
              update_detected := true,
              last_seen_update_time := some "2025-06-10 09:15:00" }).1).last_seen_update_time =
        some "2025-06-10 09:15:00" ∧
     ((({ initialState with
            update_detected := true,
            last_seen_update_time := some "2025-06-10 09:15:00" } :
          MonitorState)).update_detected = true →
       check_price ⟨2025, 6, 10, 1, 58500, 0⟩
           (.ok ⟨"2025-06-10 09:15:00", "2025-06-10", "1.0023"⟩) (some "p9")
           { initialState with
               update_detected := true,
               last_seen_update_time := some "2025-06-10 09:15:00" } =
         ({ initialState with
              update_detected := true,
              last_seen_update_time := some "2025-06-10 09:15:00" }, []))) :=
  ⟨rfl, by decide, rfl,
   check_price_marker_idempotence ⟨2025, 6, 10, 1, 58500, 0⟩
     { initialState with
         update_detected := true,
         last_seen_update_time := some "2025-06-10 09:15:00" }
     ⟨"2025-06-10 09:15:00", "2025-06-10", "1.0023"⟩ (some "p9") "2025-06-10"
     rfl (by decide) (by decide) (by decide)⟩

/-- C6: when the fetch raises inside the gated body of `check_price`,
the error summary is broadcast and `last_error_at` is refreshed exactly
when `should_send_error` holds, i.e. when no error was ever notified or
at least 60 minutes have elapsed; otherwise the failure is swallowed
with no state change.  Consequently a second failure strictly inside
the cooldown produces no second broadcast: across the two calls exactly
the first error message is sent. -/
theorem check_price_error_cooldown
    (now now2 : Now) (e e2 : String) (np np2 : Option String) (st : MonitorState)
    (hstop : st.stop_all = false)
    (hwd : is_weekday now = true)
    (hwin : within_time_window now.secondOfDay CHECK_WINDOW_START CHECK_WINDOW_END = true) :
    (check_price now (.error e) np st =
      if should_send_error st now then
        ({ st with last_error_at := some now.absSeconds },
         [Event.sendHtml ("⚠️ QCDT monitor error:\n<pre>" ++ e ++ "</pre>")])
      else (st, [])) ∧
    (should_send_error st now = true ↔
      st.last_error_at = none ∨
        ∃ t, st.last_error_at = some t ∧ ERROR_COOLDOWN ≤ now.absSeconds - t) ∧
    (st.last_error_at = none →
      is_weekday now2 = true →
      within_time_window now2.secondOfDay CHECK_WINDOW_START CHECK_WINDOW_END = true →
      now2.absSeconds - now.absSeconds < ERROR_COOLDOWN →
      (check_price now (.error e) np st).2 =
        [Event.sendHtml ("⚠️ QCDT monitor error:\n<pre>" ++ e ++ "</pre>")] ∧
      check_price now2 (.error e2) np2 ((check_price now (.error e) np st).1) =
        ((check_price now (.error e) np st).1, [])) := by
  refine ⟨?_, ?_, ?_⟩
  · simp only [check_price, hstop, hwd, hwin, Bool.false_eq_true, if_false,
      not_true_eq_false, if_true, check_price_error]
  · unfold should_send_error
    cases hlast : st.last_error_at with
    | none => simp
    | some t => simp [hlast]
  · intro hnone hwd2 hwin2 hlt
    have hsse : should_send_error st now = true := by
      simp [should_send_error, hnone]
    have hfirst : check_price now (.error e) np st =
        ({ st with last_error_at := some now.absSeconds },
         [Event.sendHtml ("⚠️ QCDT monitor error:\n<pre>" ++ e ++ "</pre>")]) := by
      simp [check_price, hstop, hwd, hwin, check_price_error, hsse]
    rw [hfirst]
    refine ⟨rfl, ?_⟩
    have hsse2 : ∀ st' : MonitorState, st'.last_error_at = some now.absSeconds →
        should_send_error st' now2 = false := by
      intro st' h'
      simp only [should_send_error, h', decide_eq_false_iff_not, not_le]
      exact hlt
    simp [check_price, hstop, hwd2, hwin2, check_price_error, hsse2]

theorem check_price_error_cooldown_witness :
    initialState.stop_all = false ∧
    initialState.last_error_at = none ∧
    ((⟨2025, 6, 10, 1, 59100, 59100⟩ : Now).absSeconds -
       (⟨2025, 6, 10, 1, 58500, 58500⟩ : Now).absSeconds < ERROR_COOLDOWN) ∧
    ((check_price ⟨2025, 6, 10, 1, 58500, 58500⟩ (.error "timeout") (some "e1")
        initialState).2 =
      [Event.sendHtml ("⚠️ QCDT monitor error:\n<pre>" ++ "timeout" ++ "</pre>")] ∧
     check_price ⟨2025, 6, 10, 1, 59100, 59100⟩ (.error "timeout again") (some "e2")
         ((check_price ⟨2025, 6, 10, 1, 58500, 58500⟩ (.error "timeout") (some "e1")
            initialState).1) =
       ((check_price ⟨2025, 6, 10, 1, 58500, 58500⟩ (.error "timeout") (some "e1")
          initialState).1, [])) :=
  ⟨rfl, rfl, by decide,
   (check_price_error_cooldown ⟨2025, 6, 10, 1, 58500, 58500⟩
       ⟨2025, 6, 10, 1, 59100, 59100⟩ "timeout" "timeout again" (some "e1") (some "e2")
       initialState rfl (by decide) (by decide)).2.2
     rfl (by decide) (by decide) (by decide)⟩

/-- C7: `nag_poll` is a no-op — state unchanged, nothing sent — when any
of `stop_all`, `stop_nags`, `update_detected` is set, or the day is not
a business day, or the time lies outside [NAG_START, NAG_END]; in every
other case a successful send opens the 2-option poll and overwrites
`pending_nag_poll_id` with the new identifier, whatever identifier was
there before. -/
theorem nag_poll_contract (now : Now) (pid : String) (st : MonitorState) :
    ((st.stop_all = true ∨ st.stop_nags = true ∨ st.update_detected = true ∨
        is_weekday now = false ∨
        within_time_window now.secondOfDay NAG_START NAG_END = false) →
      ∀ np, nag_poll now np st = (st, [])) ∧
    (st.stop_all = false → st.stop_nags = false → st.update_detected = false →
      is_weekday now = true →
      within_time_window now.secondOfDay NAG_START NAG_END = true →
      nag_poll now (some pid) st =
        ({ st with pending_nag_poll_id := some pid },
         [Event.pollOpen NAG_POLL_QUESTION NAG_POLL_OPTIONS pid])) := by
  constructor
  · rintro (h | h | h | h | h) np <;> simp [nag_poll, h]
  · intro h1 h2 h3 h4 h5
    simp [nag_poll, h1, h2, h3, h4, h5]

theorem nag_poll_contract_witness :
    ({ initialState with pending_nag_poll_id := some "old" } : MonitorState).stop_all = false ∧
    ({ initialState with pending_nag_poll_id := some "old" } : MonitorState).stop_nags = false ∧
    ({ initialState with pending_nag_poll_id := some "old" } : MonitorState).update_detected = false ∧
    is_weekday ⟨2025, 6, 10, 1, 66600, 0⟩ = true ∧
    within_time_window 66600 NAG_START NAG_END = true ∧
    nag_poll ⟨2025, 6, 10, 1, 66600, 0⟩ (some "new")
        { initialState with pending_nag_poll_id := some "old" } =
      ({ initialState with pending_nag_poll_id := some "new" },
       [Event.pollOpen NAG_POLL_QUESTION NAG_POLL_OPTIONS "new"]) := by
  refine ⟨rfl, rfl, rfl, by decide, by decide, ?_⟩
  rw [(nag_poll_contract ⟨2025, 6, 10, 1, 66600, 0⟩ "new"
        { initialState with pending_nag_poll_id := some "old" }).2
      rfl rfl rfl (by decide) (by decide)]

/-- C8: an answer matching `pending_nag_poll_id` (and not the
announcement poll identifier, which is checked first and is distinct in
any reachable state) sets `stop_nags` and broadcasts the holiday
confirmation when option 1 is chosen; any other option index broadcasts
the investigating acknowledgment and leaves the whole state — all halt
flags included — unchanged. -/
theorem nag_answer_contract
    (now : Now) (st : MonitorState) (pid : String) (choice : Nat) (rest : List Nat)
    (hpid : st.pending_nag_poll_id = some pid)
    (hne : st.pending_update_poll_id ≠ some pid) :
    (on_poll_answer now ⟨pid, 1 :: rest⟩ st =
      ({ st with stop_nags := true },
       [Event.send "🎌 Public holiday noted. Nag reminders stopped for today."])) ∧
    (choice ≠ 1 →
      on_poll_answer now ⟨pid, choice :: rest⟩ st =
        (st, [Event.send "🕵️ Noted: Investigating / Dispute."])) := by
  constructor
  · simp [on_poll_answer, hpid, hne]
  · intro hch
    simp [on_poll_answer, hpid, hne, hch]

theorem nag_answer_contract_witness :
    ({ initialState with pending_nag_poll_id := some "pn1" } :
        MonitorState).pending_nag_poll_id = some "pn1" ∧
    ({ initialState with pending_nag_poll_id := some "pn1" } :
        MonitorState).pending_update_poll_id ≠ some "pn1" ∧
    ((on_poll_answer ⟨2025, 6, 10, 1, 66600, 0⟩ ⟨"pn1", [1]⟩
        { initialState with pending_nag_poll_id := some "pn1" } =
      ({ initialState with pending_nag_poll_id := some "pn1", stop_nags := true },
       [Event.send "🎌 Public holiday noted. Nag reminders stopped for today."])) ∧
     ((0 : Nat) ≠ 1 →
       on_poll_answer ⟨2025, 6, 10, 1, 66600, 0⟩ ⟨"pn1", [0]⟩
           { initialState with pending_nag_poll_id := some "pn1" } =
         ({ initialState with pending_nag_poll_id := some "pn1" },
          [Event.send "🕵️ Noted: Investigating / Dispute."]))) :=
  ⟨rfl, by decide,
   nag_answer_contract ⟨2025, 6, 10, 1, 66600, 0⟩
     { initialState with pending_nag_poll_id := some "pn1" } "pn1" 0 [] rfl (by decide)⟩

/-- Monotonicity of the daily flags and poll identifiers from `st` to
`st'`: a set flag stays set and a present poll identifier stays
present.  An entry point satisfying this for every input never returns
any of these fields to its initial falsy/absent value. -/
def Preserves (st st' : MonitorState) : Prop :=
  (st.update_detected = true → st'.update_detected = true) ∧
  (st.stop_all = true → st'.stop_all = true) ∧
  (st.stop_nags = true → st'.stop_nags = true) ∧
  (st.pending_update_poll_id.isSome = true → st'.pending_update_poll_id.isSome = true) ∧
  (st.pending_nag_poll_id.isSome = true → st'.pending_nag_poll_id.isSome = true)

theorem check_price_preserves (now : Now) (fetch : Except String Payload)
    (np : Option String) (st : MonitorState) :
    Preserves st (check_price now fetch np st).1 := by
  refine ⟨?_, ?_, ?_, ?_, ?_⟩ <;> intro h <;>
    (simp only [check_price, check_price_error]
     repeat' split
     all_goals simp_all)

theorem nag_poll_preserves (now : Now) (np : Option String) (st : MonitorState) :
    Preserves st (nag_poll now np st).1 := by
  unfold Preserves nag_poll
  split
  · simp
  · split
    · simp
    · split
      · simp
      · split <;> simp

theorem kickoff_preserves (now : Now) (np : Option String) (st : MonitorState) :
    Preserves st (job_6pm_nag_kickoff now np st).1 := by
  unfold job_6pm_nag_kickoff
  split
  · unfold Preserves; simp
  · split
    · unfold Preserves; simp
    · exact nag_poll_preserves now np st

theorem on_poll_answer_preserves (now : Now) (pa : PollAnswer) (st : MonitorState) :
    Preserves st (on_poll_answer now pa st).1 := by
  unfold Preserves on_poll_answer
  split
  · simp
  · split
    · simp
    · split
      · split <;> simp
      · simp

/-- C9: `daily_reset` replaces the whole state with its zero value
whatever the prior state was, and broadcasts the reset confirmation;
and it is the only entry point that can return `update_detected`,
`stop_all`, `stop_nags` or either pending poll identifier to that
initial value — each of `check_price`, `nag_poll`, the 18:00 kickoff
and `on_poll_answer` keeps every set flag set and every present poll
identifier present. -/
theorem daily_reset_zeroes_and_is_sole_reset
    (st : MonitorState) (now : Now) (fetch : Except String Payload)
    (np : Option String) (pa : PollAnswer) :
    daily_reset st = (initialState, [Event.send "🔄 QCDT bot daily reset (SGT)."]) ∧
    Preserves st (check_price now fetch np st).1 ∧
    Preserves st (nag_poll now np st).1 ∧
    Preserves st (job_6pm_nag_kickoff now np st).1 ∧
    Preserves st (on_poll_answer now pa st).1 :=
  ⟨rfl, check_price_preserves now fetch np st, nag_poll_preserves now np st,
   kickoff_preserves now np st, on_poll_answer_preserves now pa st⟩

theorem daily_reset_zeroes_and_is_sole_reset_witness :
    daily_reset
        { last_seen_update_time := some "2025-06-10 09:15:00",
          update_detected := true, stop_all := true, stop_nags := true,
          pending_update_payload := some ⟨"2025-06-10 09:15:00", "2025-06-10", "1.0023"⟩,
          pending_update_poll_id := some "pu1", pending_nag_poll_id := some "pn1",
          last_error_at := some 58500 } =
      (initialState, [Event.send "🔄 QCDT bot daily reset (SGT)."]) ∧
    ({ initialState with stop_nags := true } : MonitorState).stop_nags = true ∧
    ((nag_poll ⟨2025, 6, 10, 1, 66600, 0⟩ (some "p7")
        { initialState with stop_nags := true }).1).stop_nags = true :=
  ⟨(daily_reset_zeroes_and_is_sole_reset
      { last_seen_update_time := some "2025-06-10 09:15:00",
        update_detected := true, stop_all := true, stop_nags := true,
        pending_update_payload := some ⟨"2025-06-10 09:15:00", "2025-06-10", "1.0023"⟩,
        pending_update_poll_id := some "pu1", pending_nag_poll_id := some "pn1",
        last_error_at := some 58500 }
      ⟨2025, 6, 10, 1, 66600, 0⟩ (.error "x") (some "p7") ⟨"q", [0]⟩).1,
   rfl,
   ((daily_reset_zeroes_and_is_sole_reset { initialState with stop_nags := true }
      ⟨2025, 6, 10, 1, 66600, 0⟩ (.error "x") (some "p7") ⟨"q", [0]⟩).2.2.1).2.2.1 rfl⟩

/-- C10: answer routing is not gated by the monitoring halt: with
`stop_all` already true and a live `pending_nag_poll_id`, a matching
answer is still processed — it always broadcasts a response, and
option 1 still sets `stop_nags`; only `check_price` and `nag_poll` are
suppressed by the halt. -/
theorem poll_answer_ungated_by_halt
    (now : Now) (st : MonitorState) (pid : String) (choice : Nat) (rest : List Nat)
    (hhalt : st.stop_all = true)
    (hpid : st.pending_nag_poll_id = some pid)
    (hne : st.pending_update_poll_id ≠ some pid) :
    (on_poll_answer now ⟨pid, 1 :: rest⟩ st =
      ({ st with stop_nags := true },
       [Event.send "🎌 Public holiday noted. Nag reminders stopped for today."])) ∧
    (choice ≠ 1 →
      on_poll_answer now ⟨pid, choice :: rest⟩ st =
        (st, [Event.send "🕵️ Noted: Investigating / Dispute."])) ∧
    (on_poll_answer now ⟨pid, choice :: rest⟩ st).2 ≠ [] := by
  refine ⟨?_, ?_, ?_⟩
  · simp [on_poll_answer, hpid, hne]
  · intro hch
    simp [on_poll_answer, hpid, hne, hch]
  · by_cases hch : choice = 1
    · subst hch
      simp [on_poll_answer, hpid, hne]
    · simp [on_poll_answer, hpid, hne, hch]

theorem poll_answer_ungated_by_halt_witness :
    ({ initialState with
         stop_all := true,
         pending_update_poll_id := some "pu1",
         pending_nag_poll_id := some "pn1" } : MonitorState).stop_all = true ∧
    ({ initialState with
         stop_all := true,
         pending_update_poll_id := some "pu1",
         pending_nag_poll_id := some "pn1" } : MonitorState).pending_nag_poll_id =
      some "pn1" ∧
    ({ initialState with
         stop_all := true,
         pending_update_poll_id := some "pu1",
         pending_nag_poll_id := some "pn1" } : MonitorState).pending_update_poll_id ≠
      some "pn1" ∧
    on_poll_answer ⟨2025, 6, 10, 1, 66600, 0⟩ ⟨"pn1", [1]⟩
        { initialState with
            stop_all := true,
            pending_update_poll_id := some "pu1",
            pending_nag_poll_id := some "pn1" } =
      ({ initialState with
           stop_all := true,
           pending_update_poll_id := some "pu1",
           pending_nag_poll_id := some "pn1",
           stop_nags := true },
       [Event.send "🎌 Public holiday noted. Nag reminders stopped for today."]) := by
  refine ⟨rfl, rfl, by decide, ?_⟩
  rw [(poll_answer_ungated_by_halt ⟨2025, 6, 10, 1, 66600, 0⟩
        { initialState with
            stop_all := true,
            pending_update_poll_id := some "pu1",
            pending_nag_poll_id := some "pn1" }
        "pn1" 1 [] rfl rfl (by decide)).1]
